import Mathlib

/-!
Verification of `src/setup-oauth.ts`: OAuth credential persistence and the
expiry-check-and-refresh routine.

The embedding models the JavaScript values that flow through the code:
`JsNum` is a JS number restricted to the integers appearing here, plus `NaN`;
`JsVal` is the universe of values produced by `JSON.parse` together with
`undefined` (the result of a missing property access) and in-memory numbers
that may be `NaN`.  The credential file is modelled by `FileContent`: absent,
present but not valid JSON, or present with a parsed value.  The remote token
endpoint is an environment parameter: either a successful
`RefreshTokenResponse` or a failure (non-ok HTTP status with body, or a
transport error).  File writes go through `JSON.stringify`, which drops
`undefined` object fields and serializes `NaN` as `null`; `normJson` captures
the resulting parse-of-stringify normalization.
-/

namespace SetupOAuth

/-- JS numbers as they occur in this program: integers or `NaN`. -/
inductive JsNum where
  | int (n : Int)
  | nan
deriving DecidableEq, Repr

/-- JS values reachable in this program: `JSON.parse` results plus
`undefined` and `NaN`-valued numbers. -/
inductive JsVal where
  | undefined
  | null
  | bool (b : Bool)
  | num (n : JsNum)
  | str (s : String)
  | arr (xs : List JsVal)
  | obj (fields : List (String × JsVal))

/-- JS falsiness: `undefined`, `null`, `false`, `0`, `NaN` and `""` are falsy. -/
def jsFalsy : JsVal → Bool
  | .undefined => true
  | .null => true
  | .bool b => !b
  | .num (.int n) => n == 0
  | .num .nan => true
  | .str s => s == ""
  | .arr _ => false
  | .obj _ => false

/-- Association-list lookup for object fields, first match wins. -/
def lookupField : List (String × JsVal) → String → Option JsVal
  | [], _ => none
  | (k, v) :: fs, key => if k = key then some v else lookupField fs key

/-- In-place field update (insertion order preserved); appends when absent,
as JS property assignment does. -/
def setField : List (String × JsVal) → String → JsVal → List (String × JsVal)
  | [], k, v => [(k, v)]
  | (k0, v0) :: fs, k, v => if k0 = k then (k0, v) :: fs else (k0, v0) :: setField fs k v

/-- A thrown JS error: an `Error` with a message, or a `TypeError` raised by
the runtime (property access on `undefined`/`null`, assignment in strict
mode to a property of a non-object). -/
inductive JsError where
  | thrown (msg : String)
  | typeError (msg : String)
deriving DecidableEq, Repr

/-- The `.message` of a caught error (all errors here are `Error` instances). -/
def errMessage : JsError → String
  | .thrown m => m
  | .typeError m => m

/-- JS property read `v[k]`: throws `TypeError` on `undefined`/`null`,
returns the field (or `undefined`) on objects, and `undefined` on boxed
primitives (none of the accessed keys is a built-in property). -/
def getProp : JsVal → String → Except JsError JsVal
  | .undefined, k => .error (.typeError ("Cannot read properties of undefined (reading " ++ k ++ ")"))
  | .null, k => .error (.typeError ("Cannot read properties of null (reading " ++ k ++ ")"))
  | .obj fs, k => .ok ((lookupField fs k).getD .undefined)
  | _, _ => .ok .undefined

/-- JS property write `v[k] = x` in strict mode: updates objects, throws
`TypeError` otherwise. -/
def setProp : JsVal → String → JsVal → Except JsError JsVal
  | .obj fs, k, v => .ok (.obj (setField fs k v))
  | .undefined, k, _ => .error (.typeError ("Cannot set properties of undefined (setting " ++ k ++ ")"))
  | .null, k, _ => .error (.typeError ("Cannot set properties of null (setting " ++ k ++ ")"))
  | _, k, _ => .error (.typeError ("Cannot create property " ++ k ++ " on primitive"))

/-- ToNumber on a trimmed all-digit string with optional sign; other shapes
(decimals, exponents, hex) do not occur in this program and yield `NaN`. -/
def strDigitsVal : List Char → Option Nat
  | [] => none
  | [c] => if c.isDigit then some (c.toNat - 48) else none
  | c :: cs => if c.isDigit then
      match strDigitsVal cs with
      | some v => some ((c.toNat - 48) * 10 ^ cs.length + v)
      | none => none
    else none

/-- Is this character JS whitespace (the forms relevant here)? -/
def isJsWs (c : Char) : Bool :=
  c = ' ' || c = '\t' || c = '\n' || c = '\r'

/-- Drop leading JS whitespace. -/
def skipWs : List Char → List Char
  | [] => []
  | c :: cs => if isJsWs c then skipWs cs else c :: cs

/-- JS `ToNumber` coercion as used by the subtraction `expiresAt - now`. -/
def toNumber : JsVal → JsNum
  | .num n => n
  | .null => .int 0
  | .undefined => .nan
  | .bool b => .int (if b then 1 else 0)
  | .str s =>
    match skipWs s.data with
    | [] => .int 0
    | '-' :: cs => match strDigitsVal cs with
      | some v => .int (-(v : Int))
      | none => .nan
    | '+' :: cs => match strDigitsVal cs with
      | some v => .int (v : Int)
      | none => .nan
    | cs => match strDigitsVal cs with
      | some v => .int (v : Int)
      | none => .nan
  | .arr [] => .int 0
  | .arr _ => .nan
  | .obj _ => .nan

/-- JS subtraction on numbers: `NaN` is absorbing. -/
def jsSub : JsNum → JsNum → JsNum
  | .int a, .int b => .int (a - b)
  | _, _ => .nan

/-- JS `<=` on numbers: any comparison involving `NaN` is false. -/
def jsLe : JsNum → JsNum → Bool
  | .int a, .int b => decide (a ≤ b)
  | _, _ => false

/-- Value of the longest leading digit run (`parseInt` stops at the first
non-digit). -/
def parseIntDigits : List Char → Nat → Nat
  | [], acc => acc
  | c :: cs, acc => if c.isDigit then parseIntDigits cs (acc * 10 + (c.toNat - 48)) else acc

/-- Does the input start with a digit? -/
def hasLeadingDigit : List Char → Bool
  | [] => false
  | c :: _ => c.isDigit

/-- JS `parseInt(s)` (base 10; hex prefixes do not occur in this program):
skip whitespace, optional sign, then the leading digit run; `NaN` when no
digit is found. -/
def parseIntJs (s : String) : JsNum :=
  match skipWs s.data with
  | '-' :: cs => if hasLeadingDigit cs then .int (-(parseIntDigits cs 0 : Int)) else .nan
  | '+' :: cs => if hasLeadingDigit cs then .int ((parseIntDigits cs 0 : Int)) else .nan
  | cs => if hasLeadingDigit cs then .int ((parseIntDigits cs 0 : Int)) else .nan

mutual

/-- `JSON.parse(JSON.stringify v)`: `NaN` serializes as `null`; `undefined`
becomes `null` inside arrays and the field is dropped inside objects. -/
def normJson : JsVal → JsVal
  | .undefined => .null
  | .null => .null
  | .bool b => .bool b
  | .num (.int n) => .num (.int n)
  | .num .nan => .null
  | .str s => .str s
  | .arr xs => .arr (normList xs)
  | .obj fs => .obj (normFields fs)

/-- `normJson` mapped over array elements. -/
def normList : List JsVal → List JsVal
  | [] => []
  | x :: xs => normJson x :: normList xs

/-- `normJson` over object fields, dropping `undefined`-valued ones. -/
def normFields : List (String × JsVal) → List (String × JsVal)
  | [] => []
  | (_, .undefined) :: fs => normFields fs
  | (k, v) :: fs => (k, normJson v) :: normFields fs

end

/-- State of the file at `~/.claude/.credentials.json`: missing, present but
not valid JSON, or present with parsed value `v`. -/
inductive FileContent where
  | absent
  | invalid (raw : String)
  | json (v : JsVal)

/-- Success body of the token-refresh endpoint. -/
structure RefreshTokenResponse where
  access_token : String
  refresh_token : String
  expires_in : Int
deriving DecidableEq, Repr

/-- Outcome of the `fetch` to the token endpoint: a non-ok HTTP response
with status and body text, or a transport-level rejection. -/
inductive FetchFailure where
  | httpError (status : Nat) (body : String)
  | networkError (msg : String)
deriving DecidableEq, Repr

/-- `refreshAccessToken`: POSTs the refresh token; on a non-ok response
throws `Failed to refresh token: <status> <body>`; a transport rejection
propagates as-is. -/
def refreshAccessToken (env : Except FetchFailure RefreshTokenResponse) :
    Except JsError RefreshTokenResponse :=
  match env with
  | .ok resp => .ok resp
  | .error (.httpError status body) =>
    .error (.thrown ("Failed to refresh token: " ++ toString status ++ " " ++ body))
  | .error (.networkError m) => .error (.typeError m)

/-- `loadCredentials`: read and `JSON.parse` the credential file; any read
or parse failure is caught and returns `null`. -/
def loadCredentials : FileContent → JsVal
  | .absent => .null
  | .invalid _ => .null
  | .json v => v

/-- `saveCredentials`: write `JSON.stringify(credentials, null, 2)` to the
fixed path, overwriting prior content; the stored parsed value is the
stringify/parse normalization of the in-memory value. -/
def saveCredentials (credentials : JsVal) : FileContent :=
  .json (normJson credentials)

/-- The three assignments of the refresh success path:
`credentials.claudeAiOauth.accessToken = resp.access_token`, then
`.refreshToken = resp.refresh_token`, then `.expiresAt = now + resp.expires_in`,
each re-reading `credentials.claudeAiOauth` (value semantics stand in for
reference mutation: the parsed JSON is a tree). -/
def applyRefreshUpdates (credentials : JsVal) (now : Int) (resp : RefreshTokenResponse) :
    Except JsError JsVal := do
  let o1 ← getProp credentials "claudeAiOauth"
  let o1 ← setProp o1 "accessToken" (.str resp.access_token)
  let c1 ← setProp credentials "claudeAiOauth" o1
  let o2 ← getProp c1 "claudeAiOauth"
  let o2 ← setProp o2 "refreshToken" (.str resp.refresh_token)
  let c2 ← setProp c1 "claudeAiOauth" o2
  let o3 ← getProp c2 "claudeAiOauth"
  let o3 ← setProp o3 "expiresAt" (.num (.int (now + resp.expires_in)))
  setProp c2 "claudeAiOauth" o3

/-- Result of one `ensureValidToken` invocation: the file state after the
call, the number of remote calls performed, and the returned/thrown outcome. -/
structure EnsureResult where
  fs : FileContent
  calls : Nat
  outcome : Except JsError Unit

/-- `ensureValidToken`: load; throw if falsy; read
`credentials.claudeAiOauth.expiresAt` (TypeError here propagates unwrapped);
if `expiresAt - now <= 300`, perform the refresh exchange inside `try`,
apply the three assignments, persist, and wrap any caught error as
`Failed to refresh OAuth token: <message>`; otherwise return with no call. -/
def ensureValidToken (fs : FileContent) (now : Int)
    (env : Except FetchFailure RefreshTokenResponse) : EnsureResult :=
  let credentials := loadCredentials fs
  if jsFalsy credentials then
    ⟨fs, 0, .error (.thrown "No OAuth credentials found. Please set up OAuth first.")⟩
  else
    match getProp credentials "claudeAiOauth" with
    | .error e => ⟨fs, 0, .error e⟩
    | .ok oauth =>
      match getProp oauth "expiresAt" with
      | .error e => ⟨fs, 0, .error e⟩
      | .ok expiresAtV =>
        if jsLe (jsSub (toNumber expiresAtV) (.int now)) (.int 300) then
          match (do let o ← getProp credentials "claudeAiOauth"
                    getProp o "refreshToken" : Except JsError JsVal) with
          | .error e =>
            ⟨fs, 0, .error (.thrown ("Failed to refresh OAuth token: " ++ errMessage e))⟩
          | .ok _ =>
            match refreshAccessToken env with
            | .error e =>
              ⟨fs, 1, .error (.thrown ("Failed to refresh OAuth token: " ++ errMessage e))⟩
            | .ok resp =>
              match applyRefreshUpdates credentials now resp with
              | .error e =>
                ⟨fs, 1, .error (.thrown ("Failed to refresh OAuth token: " ++ errMessage e))⟩
              | .ok credentials2 => ⟨saveCredentials credentials2, 1, .ok ()⟩
        else
          ⟨fs, 0, .ok ()⟩

/-- Input to the setup path: externally supplied tokens and an expiry given
as a string. -/
structure OAuthCredentials where
  accessToken : String
  refreshToken : String
  expiresAt : String
deriving DecidableEq, Repr

/-- `setupOAuthCredentials`: build the credentials JSON with fixed scopes and
`parseInt(expiresAt)`, and write it, unconditionally overwriting any prior
file (the previous file state is ignored). -/
def setupOAuthCredentials (_fs : FileContent) (credentials : OAuthCredentials) : FileContent :=
  let credentialsData : JsVal :=
    .obj [("claudeAiOauth", .obj
      [ ("accessToken", .str credentials.accessToken),
        ("refreshToken", .str credentials.refreshToken),
        ("expiresAt", .num (parseIntJs credentials.expiresAt)),
        ("scopes", .arr [.str "user:inference", .str "user:profile"]) ])]
  .json (normJson credentialsData)

/-- A well-formed stored credential record, as described by the persisted
shape `{ claudeAiOauth: { accessToken, refreshToken, expiresAt, scopes } }`. -/
structure OAuthRecord where
  accessToken : String
  refreshToken : String
  expiresAt : Int
  scopes : List String
deriving DecidableEq, Repr

/-- The parsed-JSON encoding of a well-formed record. -/
def encodeRecord (r : OAuthRecord) : JsVal :=
  .obj [("claudeAiOauth", .obj
    [ ("accessToken", .str r.accessToken),
      ("refreshToken", .str r.refreshToken),
      ("expiresAt", .num (.int r.expiresAt)),
      ("scopes", .arr (r.scopes.map .str)) ])]

/-! ## Helper lemmas -/

theorem normList_map_str (xs : List String) :
    normList (xs.map JsVal.str) = xs.map JsVal.str := by
  induction xs with
  | nil => rfl
  | cons x xs ih => simp [List.map, normList, normJson, ih]

theorem normJson_encodeRecord (r : OAuthRecord) :
    normJson (encodeRecord r) = encodeRecord r := by
  simp [encodeRecord, normJson, normFields, normList_map_str]

/-- What `JSON.stringify` writes for a JS number: the number itself, with
`NaN` serialized as `null`. -/
def storedNum : JsNum → JsVal
  | .int n => .num (.int n)
  | .nan => .null

theorem normJson_num (n : JsNum) : normJson (.num n) = storedNum n := by
  cases n <;> simp [normJson, storedNum]

theorem normJson_str (s : String) : normJson (.str s) = .str s := by
  simp [normJson]

theorem normJson_obj (fs : List (String × JsVal)) :
    normJson (.obj fs) = .obj (normFields fs) := by
  simp [normJson]

theorem normFields_nil : normFields [] = [] := by
  simp [normFields]

theorem normFields_cons_str (k : String) (s : String) (fs : List (String × JsVal)) :
    normFields ((k, .str s) :: fs) = (k, .str s) :: normFields fs := by
  simp [normFields, normJson]

theorem normFields_cons_num (k : String) (n : JsNum) (fs : List (String × JsVal)) :
    normFields ((k, .num n) :: fs) = (k, storedNum n) :: normFields fs := by
  cases n <;> simp [normFields, normJson, storedNum]

theorem normFields_cons_arr (k : String) (xs : List JsVal) (fs : List (String × JsVal)) :
    normFields ((k, .arr xs) :: fs) = (k, .arr (normList xs)) :: normFields fs := by
  simp [normFields, normJson]

theorem normFields_cons_obj (k : String) (os fs : List (String × JsVal)) :
    normFields ((k, .obj os) :: fs) = (k, .obj (normFields os)) :: normFields fs := by
  simp [normFields, normJson]

theorem normList_nil : normList [] = [] := by
  simp [normList]

theorem normList_cons (x : JsVal) (xs : List JsVal) :
    normList (x :: xs) = normJson x :: normList xs := by
  simp [normList]

/-- Full characterization of `ensureValidToken` on a well-formed stored
record: no call and no write when outside the 300-second window; otherwise
exactly one call, with the record rebuilt from the response on success and
left untouched (with the wrapped error) on failure. -/
theorem ensureValidToken_encode (r : OAuthRecord) (now : Int)
    (env : Except FetchFailure RefreshTokenResponse) :
    ensureValidToken (.json (encodeRecord r)) now env =
      if r.expiresAt - now ≤ 300 then
        match env with
        | .ok resp =>
          ⟨.json (encodeRecord ⟨resp.access_token, resp.refresh_token,
              now + resp.expires_in, r.scopes⟩), 1, .ok ()⟩
        | .error (.httpError status body) =>
          ⟨.json (encodeRecord r), 1, .error (.thrown
            ("Failed to refresh OAuth token: " ++
              ("Failed to refresh token: " ++ toString status ++ " " ++ body)))⟩
        | .error (.networkError m) =>
          ⟨.json (encodeRecord r), 1,
            .error (.thrown ("Failed to refresh OAuth token: " ++ m))⟩
      else ⟨.json (encodeRecord r), 0, .ok ()⟩ := by
  by_cases h : r.expiresAt - now ≤ 300
  · rcases env with f | resp
    · rcases f with ⟨status, body⟩ | m <;>
        simp [ensureValidToken, loadCredentials, jsFalsy, getProp, lookupField,
          toNumber, jsSub, jsLe, h, refreshAccessToken, errMessage, encodeRecord,
          Bind.bind, Except.bind, Option.getD]
    · simp [ensureValidToken, loadCredentials, jsFalsy, getProp, lookupField,
        toNumber, jsSub, jsLe, h, refreshAccessToken, applyRefreshUpdates,
        setProp, setField, saveCredentials, normJson, normFields,
        normList_map_str, errMessage, encodeRecord,
        Bind.bind, Except.bind, Option.getD]
  · simp [ensureValidToken, loadCredentials, jsFalsy, getProp, lookupField,
      toNumber, jsSub, jsLe, h, encodeRecord]

/-- `ensureValidToken` on a stored record whose `expiresAt` parsed as JSON
`null` (the serialized form of `NaN`): `ToNumber(null) = 0`, so the expiry
test reads `0 - now <= 300` and the refresh branch is taken whenever
`0 - now ≤ 300`; exactly one remote call is made regardless of its outcome. -/
theorem ensureValidToken_nullExpiry_calls (a rt : String) (sc : List JsVal) (now : Int)
    (env : Except FetchFailure RefreshTokenResponse) (hnow : (0 : Int) - now ≤ 300) :
    (ensureValidToken (.json (.obj [("claudeAiOauth", .obj
        [ ("accessToken", .str a), ("refreshToken", .str rt),
          ("expiresAt", .null), ("scopes", .arr sc) ])])) now env).calls = 1 := by
  have hn : -now ≤ 300 := by omega
  rcases env with f | resp
  · rcases f with ⟨st, bd⟩ | m <;>
      simp [ensureValidToken, loadCredentials, jsFalsy, getProp, lookupField,
        Option.getD, toNumber, jsSub, jsLe, refreshAccessToken,
        Bind.bind, Except.bind, hn]
  · simp [ensureValidToken, loadCredentials, jsFalsy, getProp, lookupField,
      Option.getD, toNumber, jsSub, jsLe, refreshAccessToken,
      applyRefreshUpdates, setProp, setField, Bind.bind, Except.bind, hn]

/-! ## Claims -/

/-- C1: for a stored record with `expiresAt - now <= 300`, `ensureValidToken`
performs exactly one remote refresh call and, on a successful response,
persists (via the store) a record in which `accessToken`, `refreshToken` and
`expiresAt` are all taken from the response, with
`expiresAt = now + expires_in`. -/
theorem expiring_refresh_replaces_all (r : OAuthRecord) (now : Int)
    (resp : RefreshTokenResponse) (h : r.expiresAt - now ≤ 300) :
    ensureValidToken (.json (encodeRecord r)) now (.ok resp) =
      ⟨.json (encodeRecord ⟨resp.access_token, resp.refresh_token,
          now + resp.expires_in, r.scopes⟩), 1, .ok ()⟩ := by
  rw [ensureValidToken_encode, if_pos h]

theorem expiring_refresh_replaces_all_witness :
    ensureValidToken (.json (encodeRecord ⟨"A1", "R1", 100, ["user:inference"]⟩)) 0
        (.ok ⟨"A2", "R2", 3600⟩) =
      ⟨.json (encodeRecord ⟨"A2", "R2", 0 + 3600, ["user:inference"]⟩), 1, .ok ()⟩ :=
  expiring_refresh_replaces_all ⟨"A1", "R1", 100, ["user:inference"]⟩ 0
    ⟨"A2", "R2", 3600⟩ (by decide)

/-- C2: for a stored record with `expiresAt - now > 300`, `ensureValidToken`
performs no remote call (whatever the endpoint would answer) and the file
state after the call equals the file state before it. -/
theorem valid_no_call_no_write (r : OAuthRecord) (now : Int)
    (env : Except FetchFailure RefreshTokenResponse) (h : 300 < r.expiresAt - now) :
    ensureValidToken (.json (encodeRecord r)) now env =
      ⟨.json (encodeRecord r), 0, .ok ()⟩ := by
  rw [ensureValidToken_encode, if_neg (not_le.mpr h)]

theorem valid_no_call_no_write_witness :
    ensureValidToken (.json (encodeRecord ⟨"A1", "R1", 1000, ["user:inference"]⟩)) 0
        (.ok ⟨"A2", "R2", 3600⟩) =
      ⟨.json (encodeRecord ⟨"A1", "R1", 1000, ["user:inference"]⟩), 0, .ok ()⟩ :=
  valid_no_call_no_write ⟨"A1", "R1", 1000, ["user:inference"]⟩ 0
    (.ok ⟨"A2", "R2", 3600⟩) (by decide)

/-- C3: when the refresh exchange fails — a non-ok HTTP response, or a
transport rejection — `ensureValidToken` rejects with a terminal error whose
message carries the response status and body (resp. the underlying error
message), the file is unchanged, and exactly one call was attempted (no
retry). -/
theorem refresh_failure_terminal (r : OAuthRecord) (now : Int)
    (h : r.expiresAt - now ≤ 300) :
    (∀ status body,
      ensureValidToken (.json (encodeRecord r)) now (.error (.httpError status body)) =
        ⟨.json (encodeRecord r), 1, .error (.thrown ("Failed to refresh OAuth token: " ++
          ("Failed to refresh token: " ++ toString status ++ " " ++ body)))⟩) ∧
    (∀ m, ensureValidToken (.json (encodeRecord r)) now (.error (.networkError m)) =
        ⟨.json (encodeRecord r), 1,
          .error (.thrown ("Failed to refresh OAuth token: " ++ m))⟩) := by
  constructor
  · intro status body
    rw [ensureValidToken_encode, if_pos h]
  · intro m
    rw [ensureValidToken_encode, if_pos h]

theorem refresh_failure_terminal_witness :
    ensureValidToken (.json (encodeRecord ⟨"A1", "R1", 100, ["user:inference"]⟩)) 0
        (.error (.httpError 401 "Unauthorized")) =
      ⟨.json (encodeRecord ⟨"A1", "R1", 100, ["user:inference"]⟩), 1,
        .error (.thrown "Failed to refresh OAuth token: Failed to refresh token: 401 Unauthorized")⟩ :=
  (refresh_failure_terminal ⟨"A1", "R1", 100, ["user:inference"]⟩ 0 (by decide)).1
    401 "Unauthorized"

/-- C4: `loadCredentials` returns the parsed value when the file holds valid
JSON, and `null` ("no credentials yet") — never an error — when the file is
missing or unparsable; its return type admits no error at all. -/
theorem load_never_escalates :
    loadCredentials .absent = .null ∧
    (∀ raw, loadCredentials (.invalid raw) = .null) ∧
    (∀ v, loadCredentials (.json v) = v) :=
  ⟨rfl, fun _ => rfl, fun _ => rfl⟩

/-- C5: when `loadCredentials` yields `null`, `ensureValidToken` throws the
terminal "No OAuth credentials found" error, performs no remote call, and
leaves the file untouched. -/
theorem missing_credentials_terminal (fs : FileContent) (now : Int)
    (env : Except FetchFailure RefreshTokenResponse)
    (h : loadCredentials fs = .null) :
    ensureValidToken fs now env =
      ⟨fs, 0, .error (.thrown "No OAuth credentials found. Please set up OAuth first.")⟩ := by
  simp [ensureValidToken, h, jsFalsy]

theorem missing_credentials_terminal_witness :
    ensureValidToken .absent 0 (.ok ⟨"A2", "R2", 3600⟩) =
      ⟨.absent, 0, .error (.thrown "No OAuth credentials found. Please set up OAuth first.")⟩ :=
  missing_credentials_terminal .absent 0 (.ok ⟨"A2", "R2", 3600⟩) rfl

/-- C6: round-trip — saving a credential record and loading it back yields
the record unchanged. -/
theorem save_load_roundtrip (r : OAuthRecord) :
    loadCredentials (saveCredentials (encodeRecord r)) = encodeRecord r := by
  simp [saveCredentials, loadCredentials, normJson_encodeRecord]

/-- C7: running setup twice leaves exactly the record built from the second
input (the prior file state is ignored, no merge), and every record setup
writes carries the fixed scopes `user:inference`, `user:profile` together
with the tokens and the parsed expiry of its own input. -/
theorem setup_overwrite_fixed_scopes (fs : FileContent) (c c1 c2 : OAuthCredentials) :
    setupOAuthCredentials (setupOAuthCredentials fs c1) c2 = setupOAuthCredentials fs c2 ∧
    setupOAuthCredentials fs c = .json (.obj [("claudeAiOauth", .obj
      [ ("accessToken", .str c.accessToken),
        ("refreshToken", .str c.refreshToken),
        ("expiresAt", storedNum (parseIntJs c.expiresAt)),
        ("scopes", .arr [.str "user:inference", .str "user:profile"]) ])]) := by
  refine ⟨rfl, ?_⟩
  simp only [setupOAuthCredentials, normJson_obj, normFields_cons_obj,
    normFields_cons_str, normFields_cons_num, normFields_cons_arr,
    normFields_nil, normList_cons, normList_nil, normJson_str]

/-- C8: every write pairs `accessToken` with the matching `expiresAt`: a
refresh either leaves the file as it was or persists a record whose token
and expiry both come from the same response (with `refreshToken` and scopes
alongside), and a setup write takes both from its single input — no write
mixes a new token with an old expiry or vice versa. -/
theorem access_expiry_updated_as_pair (r : OAuthRecord) (now : Int)
    (env : Except FetchFailure RefreshTokenResponse) (fs : FileContent)
    (c : OAuthCredentials) :
    ((ensureValidToken (.json (encodeRecord r)) now env).fs = .json (encodeRecord r) ∨
      (∃ resp, env = .ok resp ∧
        (ensureValidToken (.json (encodeRecord r)) now env).fs =
          .json (encodeRecord ⟨resp.access_token, resp.refresh_token,
            now + resp.expires_in, r.scopes⟩))) ∧
    setupOAuthCredentials fs c = .json (.obj [("claudeAiOauth", .obj
      [ ("accessToken", .str c.accessToken),
        ("refreshToken", .str c.refreshToken),
        ("expiresAt", storedNum (parseIntJs c.expiresAt)),
        ("scopes", .arr [.str "user:inference", .str "user:profile"]) ])]) := by
  constructor
  · rw [ensureValidToken_encode]
    by_cases h : r.expiresAt - now ≤ 300
    · rw [if_pos h]
      rcases env with f | resp
      · rcases f with ⟨status, body⟩ | m
        · exact .inl rfl
        · exact .inl rfl
      · exact .inr ⟨resp, rfl, rfl⟩
    · rw [if_neg h]
      exact .inl rfl
  · simp only [setupOAuthCredentials, normJson_obj, normFields_cons_obj,
      normFields_cons_str, normFields_cons_num, normFields_cons_arr,
      normFields_nil, normList_cons, normList_nil, normJson_str]

/-- C9: a malformed (non-numeric) `expiresAt` string parses to `NaN`, which
`JSON.stringify` persists as `null`; on every later `ensureValidToken` check
(at any non-negative clock) the record therefore appears expired and the
refresh branch performs its remote call. -/
theorem malformed_expiry_always_refreshes (fs : FileContent) (c : OAuthCredentials)
    (now : Int) (env : Except FetchFailure RefreshTokenResponse)
    (hnan : parseIntJs c.expiresAt = .nan) (hnow : 0 ≤ now) :
    setupOAuthCredentials fs c = .json (.obj [("claudeAiOauth", .obj
      [ ("accessToken", .str c.accessToken),
        ("refreshToken", .str c.refreshToken),
        ("expiresAt", .null),
        ("scopes", .arr [.str "user:inference", .str "user:profile"]) ])]) ∧
    (ensureValidToken (setupOAuthCredentials fs c) now env).calls = 1 := by
  have hsetup : setupOAuthCredentials fs c = .json (.obj [("claudeAiOauth", .obj
      [ ("accessToken", .str c.accessToken),
        ("refreshToken", .str c.refreshToken),
        ("expiresAt", .null),
        ("scopes", .arr [.str "user:inference", .str "user:profile"]) ])]) := by
    simp only [setupOAuthCredentials, hnan, normJson_obj, normFields_cons_obj,
      normFields_cons_str, normFields_cons_num, normFields_cons_arr,
      normFields_nil, normList_cons, normList_nil, normJson_str, storedNum]
  refine ⟨hsetup, ?_⟩
  rw [hsetup]
  exact ensureValidToken_nullExpiry_calls c.accessToken c.refreshToken
    [.str "user:inference", .str "user:profile"] now env (by omega)

theorem malformed_expiry_always_refreshes_witness :
    parseIntJs "not-a-number" = .nan ∧
    (setupOAuthCredentials .absent ⟨"A1", "R1", "not-a-number"⟩ =
      .json (.obj [("claudeAiOauth", .obj
        [ ("accessToken", .str "A1"),
          ("refreshToken", .str "R1"),
          ("expiresAt", .null),
          ("scopes", .arr [.str "user:inference", .str "user:profile"]) ])]) ∧
      (ensureValidToken (setupOAuthCredentials .absent ⟨"A1", "R1", "not-a-number"⟩) 5
          (.error (.networkError "fetch failed"))).calls = 1) :=
  ⟨by decide, malformed_expiry_always_refreshes .absent ⟨"A1", "R1", "not-a-number"⟩ 5
      (.error (.networkError "fetch failed")) (by decide) (by decide)⟩

/-- C10: `loadCredentials` does no shape validation: a file holding any
valid-JSON object without a `claudeAiOauth` key loads as a present record
(not `null`), and `ensureValidToken` then fails with the uncaught
property-access `TypeError` — not with the "No OAuth credentials found"
error — making no call and no write. -/
theorem load_no_shape_validation (l : List (String × JsVal)) (now : Int)
    (env : Except FetchFailure RefreshTokenResponse)
    (h : lookupField l "claudeAiOauth" = none) :
    loadCredentials (.json (.obj l)) = .obj l ∧
    ensureValidToken (.json (.obj l)) now env =
      ⟨.json (.obj l), 0,
        .error (.typeError "Cannot read properties of undefined (reading expiresAt)")⟩ := by
  refine ⟨rfl, ?_⟩
  simp [ensureValidToken, loadCredentials, jsFalsy, getProp, h, Option.getD]

theorem load_no_shape_validation_witness :
    lookupField [] "claudeAiOauth" = none ∧
    (loadCredentials (.json (.obj [])) = .obj [] ∧
      ensureValidToken (.json (.obj [])) 5 (.ok ⟨"A2", "R2", 3600⟩) =
        ⟨.json (.obj []), 0,
          .error (.typeError "Cannot read properties of undefined (reading expiresAt)")⟩) :=
  ⟨rfl, load_no_shape_validation [] 5 (.ok ⟨"A2", "R2", 3600⟩) rfl⟩

end SetupOAuth
